import Mathlib

/-!
Verification development for the native header
`src/java.security.jgss/share/native/libj2gss/gssapi_ext.h`.

The header is a declarations-only fragment: it declares the buffer-set
structure `gss_buffer_set_desc`, the distinguished value
`GSS_C_NO_BUFFER_SET`, and the prototypes of two external entry points
(`gss_release_buffer_set` and `gss_inquire_sec_context_by_oid`), guarded
by a pair of `pragma pack` directives on certain Apple targets.  We embed
the declaration surface itself as data (types, parameter lists, pragma
conditions) and, where the specification describes behaviour that the
fragment only declares (buffer-set well-formedness, the query/release
semantics and the lifecycle discipline), we model that behaviour from the
specification's words, marked `Modelled from the spec:` below.
-/

namespace GssapiExt

/-- C types appearing in the declarations of gssapi_ext.h.  `om_uint32` is
the numeric status type `OM_uint32`; `constTy t` is `const t`; `ptr t` is
`t *`. -/
inductive CType where
  | om_uint32
  | size_t
  | gss_ctx_id_t
  | gss_OID
  | gss_buffer_desc_ty
  | gss_buffer_set_t_ty
  | ptr (t : CType)
  | constTy (t : CType)
  deriving DecidableEq, Repr

/-- A formal parameter of a declared entry point: its comment name in the
header and its C type. -/
structure ParamDecl where
  pname : String
  ptype : CType
  deriving DecidableEq, Repr

/-- A function declaration of the header: name, return type, parameter
list, and whether the header attaches a function body to it. -/
structure FunDecl where
  fname : String
  ret : CType
  params : List ParamDecl
  hasBody : Bool
  deriving DecidableEq, Repr

/-- A parameter is an output parameter when it is passed as a non-const
pointer, the convention the header's declarations follow. -/
def ParamDecl.isOutput (p : ParamDecl) : Bool :=
  match p.ptype with
  | CType.ptr _ => true
  | _ => false

/-- Transcribed from gssapi_ext.h lines 54-56: the prototype
`OM_uint32 gss_release_buffer_set(OM_uint32 *minor_status,
gss_buffer_set_t *buffer_set)`.  The header declares it and gives no
body. -/
def gss_release_buffer_set_decl : FunDecl :=
  ⟨"gss_release_buffer_set", CType.om_uint32,
   [⟨"minor_status", CType.ptr CType.om_uint32⟩,
    ⟨"buffer_set", CType.ptr CType.gss_buffer_set_t_ty⟩],
   false⟩

/-- Transcribed from gssapi_ext.h lines 58-63: the prototype
`OM_uint32 gss_inquire_sec_context_by_oid(OM_uint32 *minor_status,
const gss_ctx_id_t context_handle, const gss_OID desired_object,
gss_buffer_set_t *data_set)`.  The header declares it and gives no
body. -/
def gss_inquire_sec_context_by_oid_decl : FunDecl :=
  ⟨"gss_inquire_sec_context_by_oid", CType.om_uint32,
   [⟨"minor_status", CType.ptr CType.om_uint32⟩,
    ⟨"context_handle", CType.constTy CType.gss_ctx_id_t⟩,
    ⟨"desired_object", CType.constTy CType.gss_OID⟩,
    ⟨"data_set", CType.ptr CType.gss_buffer_set_t_ty⟩],
   false⟩

/-- The complete list of entry points declared by gssapi_ext.h. -/
def headerDecls : List FunDecl :=
  [gss_release_buffer_set_decl, gss_inquire_sec_context_by_oid_decl]

/-- Modelled from the spec: an opaque byte-buffer descriptor.  The type
`gss_buffer_desc` comes from `gssapi.h`, which is not part of this
fragment; the spec treats it as an opaque byte buffer, so we model it as
a sequence of bytes. -/
structure gss_buffer_desc where
  bytes : List Nat
  deriving DecidableEq, Repr

/-- The buffer-set entity from gssapi_ext.h lines 47-50: exactly a count
(`size_t count`, modelled as `Nat`) and a pointer to an array of
`gss_buffer_desc` elements (`gss_buffer_desc *elements`, modelled as
`Option (List gss_buffer_desc)`, with `none` for a null pointer). -/
structure gss_buffer_set_desc where
  count : Nat
  elements : Option (List gss_buffer_desc)
  deriving DecidableEq, Repr

/-- `gss_buffer_set_t` is a pointer to `gss_buffer_set_desc`; `none`
models the null pointer, the value obtained by casting 0. -/
abbrev gss_buffer_set_t := Option gss_buffer_set_desc

/-- Transcribed from gssapi_ext.h line 52:
`#define GSS_C_NO_BUFFER_SET ((gss_buffer_set_t) 0)`, the null
`gss_buffer_set_t` pointer. -/
def GSS_C_NO_BUFFER_SET : gss_buffer_set_t := none

/-- A `gss_buffer_set_t` value denotes the absence of a buffer set
exactly when it is the null pointer. -/
def isNoBufferSet (p : gss_buffer_set_t) : Bool := p.isNone

/-- Modelled from the spec: the structural invariant of a well-formed
buffer set, "elements array length equals count"; a null `elements`
pointer carries no elements, so it is well-formed only for count 0. -/
def wellFormed (s : gss_buffer_set_desc) : Bool :=
  match s.elements with
  | none => s.count == 0
  | some l => l.length == s.count

/-- The number of elements actually carried by the `elements` pointer
(zero for a null pointer). -/
def elementsLength (s : gss_buffer_set_desc) : Nat :=
  (s.elements.getD []).length

/-- A whole `gss_buffer_set_t` value is well-formed when it is either the
null pointer or points at a well-formed descriptor. -/
def wellFormedSet (p : gss_buffer_set_t) : Bool :=
  match p with
  | none => true
  | some d => wellFormed d

/-- The target architectures named in the preprocessor condition of
gssapi_ext.h lines 42 and 65 (`__ppc__`, `__ppc64__`, `__i386__`,
`__x86_64__`), plus a catch-all for every other architecture. -/
inductive Arch where
  | ppc
  | ppc64
  | i386
  | x86_64
  | other
  deriving DecidableEq, Repr

/-- A compilation target: whether `TARGET_OS_MAC` holds and which
architecture macro is defined. -/
structure Config where
  target_os_mac : Bool
  arch : Arch
  deriving DecidableEq, Repr

/-- Pointer (and `size_t`) width in bytes on each architecture: 4 on the
32-bit targets ppc and i386, 8 on ppc64 and x86_64. -/
def ptrBytes : Arch → Nat
  | Arch.ppc => 4
  | Arch.ppc64 => 8
  | Arch.i386 => 4
  | Arch.x86_64 => 8
  | Arch.other => 8

/-- Transcribed from gssapi_ext.h line 42: the condition guarding
`pragma pack(push,2)`, namely
`TARGET_OS_MAC && (__ppc__ || __ppc64__ || __i386__ || __x86_64__)`. -/
def packPushCond (c : Config) : Bool :=
  c.target_os_mac &&
    (c.arch == Arch.ppc || c.arch == Arch.ppc64 ||
     c.arch == Arch.i386 || c.arch == Arch.x86_64)

/-- Transcribed from gssapi_ext.h line 65: the condition guarding
`pragma pack(pop)`, textually identical to the one at line 42. -/
def packPopCond (c : Config) : Bool :=
  c.target_os_mac &&
    (c.arch == Arch.ppc || c.arch == Arch.ppc64 ||
     c.arch == Arch.i386 || c.arch == Arch.x86_64)

/-- The byte alignment of `gss_buffer_set_desc` on a target: the natural
alignment of its widest member (`size_t` or the `elements` pointer, both
of width `ptrBytes`), capped at 2 when the `pack(push,2)` directive is in
force for the structure declaration. -/
def structAlignment (c : Config) : Nat :=
  if packPushCond c then min (ptrBytes c.arch) 2 else ptrBytes c.arch

/-- The compiler's structure-packing state: the current packing value
(`none` for the default natural alignment) and the stack maintained by
`pragma pack(push)` and `pragma pack(pop)`. -/
structure PackState where
  current : Option Nat
  stack : List (Option Nat)
  deriving DecidableEq, Repr

/-- `pragma pack(push,n)`: push the current packing value and make `n`
current. -/
def packPush (n : Nat) (s : PackState) : PackState :=
  ⟨some n, s.current :: s.stack⟩

/-- `pragma pack(pop)`: restore the most recently pushed packing value
(the default when the stack is empty). -/
def packPop (s : PackState) : PackState :=
  match s.stack with
  | [] => ⟨none, []⟩
  | v :: rest => ⟨v, rest⟩

/-- The net effect of including gssapi_ext.h on the compiler's packing
state: the conditional `pack(push,2)` at lines 42-44 followed by the
conditional `pack(pop)` at lines 65-67. -/
def headerPackEffect (c : Config) (s : PackState) : PackState :=
  let s1 := if packPushCond c then packPush 2 s else s
  if packPopCond c then packPop s1 else s1

/-- Modelled from the spec: the result the query operation
`gss_inquire_sec_context_by_oid` communicates to its caller - the major
status it returns, the minor status written through `minor_status`, and
the buffer set written through `data_set`.  The operation itself is
declared, not defined, in this fragment. -/
structure QueryResult where
  major : Nat
  minor : Nat
  data_set : gss_buffer_set_t
  deriving DecidableEq, Repr

/-- Modelled from the spec: failure of an operation is signaled by its
numeric major status alone (zero, `GSS_S_COMPLETE`, is success), never by
the contents of the output buffer set. -/
def statusFailed (r : QueryResult) : Bool := r.major != 0

/-- Modelled from the spec: the allocation state visible to the caller -
the ids of the live buffer sets, the ids of the live individual buffers,
and which buffer ids each set contains. -/
structure Heap where
  liveSets : List Nat
  liveBufs : List Nat
  contents : Nat → List Nat

/-- Modelled from the spec: `gss_release_buffer_set` deallocates a
previously returned buffer set as a whole - the set itself together with
every buffer it contains, in the one call - and signals failure (here:
the set is not live) via the numeric major status, returning 0 on
success. -/
def releaseBufferSet (h : Heap) (sid : Nat) : Nat × Heap :=
  if sid ∈ h.liveSets then
    (0, ⟨h.liveSets.filter (fun t => decide (t ≠ sid)),
         h.liveBufs.filter (fun b => decide (b ∉ h.contents sid)),
         h.contents⟩)
  else
    (1, h)

/-- Modelled from the spec: the events of a buffer set's lifecycle - it
is allocated and populated by the query operation, read by the caller,
and deallocated by the release operation. -/
inductive Event where
  | query (sid : Nat)
  | read (sid : Nat)
  | release (sid : Nat)
  deriving DecidableEq, Repr

/-- Modelled from the spec: the lifecycle state - which buffer sets have
been allocated by a query and which have been released. -/
structure LifeState where
  allocated : List Nat
  released : List Nat
  deriving DecidableEq, Repr

/-- Modelled from the spec: one step of the buffer-set lifecycle.  A
query allocates a fresh set; a read requires the set to be allocated and
not yet released; a release requires the same and marks the set
released.  `none` is a violation of the lifecycle discipline. -/
def lifeStep (s : LifeState) : Event → Option LifeState
  | Event.query sid =>
      if sid ∈ s.allocated ∨ sid ∈ s.released then none
      else some ⟨sid :: s.allocated, s.released⟩
  | Event.read sid =>
      if sid ∈ s.allocated ∧ sid ∉ s.released then some s else none
  | Event.release sid =>
      if sid ∈ s.allocated ∧ sid ∉ s.released then
        some ⟨s.allocated, sid :: s.released⟩
      else none

/-- Run a trace of lifecycle events from a state, failing as soon as one
step violates the discipline. -/
def runTrace (s : LifeState) : List Event → Option LifeState
  | [] => some s
  | e :: es =>
      match lifeStep s e with
      | none => none
      | some s2 => runTrace s2 es

/-- The initial lifecycle state: nothing allocated, nothing released. -/
def initState : LifeState := ⟨[], []⟩

lemma runTrace_append (s : LifeState) (xs ys : List Event) :
    runTrace s (xs ++ ys) =
      match runTrace s xs with
      | none => none
      | some m => runTrace m ys := by
  induction xs generalizing s with
  | nil => simp [runTrace]
  | cons e es ih =>
      simp only [List.cons_append, runTrace]
      cases lifeStep s e with
      | none => rfl
      | some s2 => exact ih s2

lemma lifeStep_released {s s2 : LifeState} {sid : Nat} {e : Event}
    (hrel : sid ∈ s.released) (hstep : lifeStep s e = some s2) :
    e ≠ Event.read sid ∧ e ≠ Event.release sid ∧ sid ∈ s2.released := by
  cases e with
  | query t =>
      refine ⟨by simp, by simp, ?_⟩
      simp only [lifeStep] at hstep
      by_cases h : t ∈ s.allocated ∨ t ∈ s.released
      · simp [h] at hstep
      · simp [h] at hstep
        rw [← hstep]
        exact hrel
  | read t =>
      simp only [lifeStep] at hstep
      by_cases h : t ∈ s.allocated ∧ t ∉ s.released
      · simp [h] at hstep
        refine ⟨?_, by simp, by rw [← hstep]; exact hrel⟩
        intro he
        cases he
        exact h.2 hrel
      · simp [h] at hstep
  | release t =>
      simp only [lifeStep] at hstep
      by_cases h : t ∈ s.allocated ∧ t ∉ s.released
      · simp [h] at hstep
        refine ⟨by simp, ?_, by rw [← hstep]; right; exact hrel⟩
        intro he
        cases he
        exact h.2 hrel
      · simp [h] at hstep

lemma released_not_used {s sfin : LifeState} {sid : Nat} {tr : List Event}
    (hrel : sid ∈ s.released) (hrun : runTrace s tr = some sfin) :
    Event.read sid ∉ tr ∧ Event.release sid ∉ tr := by
  induction tr generalizing s with
  | nil => simp
  | cons e es ih =>
      simp only [runTrace] at hrun
      cases hstep : lifeStep s e with
      | none => rw [hstep] at hrun; cases hrun
      | some s2 =>
          rw [hstep] at hrun
          obtain ⟨hne1, hne2, hrel2⟩ := lifeStep_released hrel hstep
          obtain ⟨h1, h2⟩ := ih hrel2 hrun
          constructor
          · intro hmem
            rcases List.mem_cons.mp hmem with h | h
            · exact hne1 h.symm
            · exact h1 h
          · intro hmem
            rcases List.mem_cons.mp hmem with h | h
            · exact hne2 h.symm
            · exact h2 h

/-- Claim C1: the buffer-set entity consists of exactly a count of how
many buffers it holds and a sequence of byte-buffer descriptors, and for
every well-formed buffer set the length of the elements sequence equals
the count field. -/
theorem buffer_set_count_matches_elements (s : gss_buffer_set_desc)
    (h : wellFormed s = true) :
    s = ⟨s.count, s.elements⟩ ∧ elementsLength s = s.count := by
  refine ⟨rfl, ?_⟩
  rcases s with ⟨c, els⟩
  cases els <;> simp_all [wellFormed, elementsLength]

/-- Witness for C1 at a concrete two-element buffer set. -/
theorem buffer_set_count_matches_elements_witness :
    elementsLength ⟨2, some [⟨[1]⟩, ⟨[2, 3]⟩]⟩ = 2 :=
  (buffer_set_count_matches_elements ⟨2, some [⟨[1]⟩, ⟨[2, 3]⟩]⟩
    (by decide)).2

/-- Claim C2: every operation the header declares returns an OM_uint32
major status and takes as its first parameter an output pointer
`OM_uint32 *minor_status` for the finer-grained minor status. -/
theorem decls_status_convention :
    ∀ d ∈ headerDecls,
      d.ret = CType.om_uint32 ∧
      d.params.head? = some ⟨"minor_status", CType.ptr CType.om_uint32⟩ ∧
      ParamDecl.isOutput ⟨"minor_status", CType.ptr CType.om_uint32⟩ = true := by
  decide

/-- Witness for C2 at the release declaration. -/
theorem decls_status_convention_witness :
    gss_release_buffer_set_decl.ret = CType.om_uint32 ∧
    gss_release_buffer_set_decl.params.head? =
      some ⟨"minor_status", CType.ptr CType.om_uint32⟩ ∧
    ParamDecl.isOutput ⟨"minor_status", CType.ptr CType.om_uint32⟩ = true :=
  decls_status_convention gss_release_buffer_set_decl (by decide)

/-- Claim C3: gss_inquire_sec_context_by_oid takes an established
security context and a property OID, returns the property's values
through its `data_set` output parameter of type `gss_buffer_set_t *`,
and signals failure via the numeric status it returns: whether the call
failed depends on the major status alone, never on the output set. -/
theorem inquire_by_oid_signature (r1 r2 : QueryResult)
    (h : r1.major = r2.major) :
    gss_inquire_sec_context_by_oid_decl.ret = CType.om_uint32 ∧
    gss_inquire_sec_context_by_oid_decl.params =
      [⟨"minor_status", CType.ptr CType.om_uint32⟩,
       ⟨"context_handle", CType.constTy CType.gss_ctx_id_t⟩,
       ⟨"desired_object", CType.constTy CType.gss_OID⟩,
       ⟨"data_set", CType.ptr CType.gss_buffer_set_t_ty⟩] ∧
    ParamDecl.isOutput ⟨"data_set", CType.ptr CType.gss_buffer_set_t_ty⟩ = true ∧
    statusFailed r1 = statusFailed r2 := by
  refine ⟨rfl, rfl, rfl, ?_⟩
  simp [statusFailed, h]

/-- Witness for C3: two results with the same major status but different
minor statuses and different output sets fail alike. -/
theorem inquire_by_oid_signature_witness :
    statusFailed ⟨1, 0, GSS_C_NO_BUFFER_SET⟩ =
      statusFailed ⟨1, 7, some ⟨0, some []⟩⟩ :=
  (inquire_by_oid_signature ⟨1, 0, GSS_C_NO_BUFFER_SET⟩
    ⟨1, 7, some ⟨0, some []⟩⟩ rfl).2.2.2

/-- Claim C4: gss_release_buffer_set, applied to a live buffer set,
returns major status 0 and deallocates the whole set together with every
contained buffer in that one call, and its declaration follows the same
status convention as the query operation (same OM_uint32 return type,
same leading `minor_status` output parameter). -/
theorem release_frees_whole_set (h : Heap) (sid : Nat)
    (hlive : sid ∈ h.liveSets) :
    (releaseBufferSet h sid).1 = 0 ∧
    sid ∉ (releaseBufferSet h sid).2.liveSets ∧
    (∀ b ∈ h.contents sid, b ∉ (releaseBufferSet h sid).2.liveBufs) ∧
    gss_release_buffer_set_decl.ret = gss_inquire_sec_context_by_oid_decl.ret ∧
    gss_release_buffer_set_decl.params.head? =
      gss_inquire_sec_context_by_oid_decl.params.head? := by
  unfold releaseBufferSet
  rw [if_pos hlive]
  refine ⟨rfl, ?_, ?_, rfl, rfl⟩
  · intro hmem
    rcases List.mem_filter.mp hmem with ⟨_, hp⟩
    simp at hp
  · intro b hb hmem
    rcases List.mem_filter.mp hmem with ⟨_, hp⟩
    rw [decide_eq_true_iff] at hp
    exact hp hb

/-- Witness for C4 at a concrete heap holding one set with two buffers. -/
theorem release_frees_whole_set_witness :
    (releaseBufferSet ⟨[5], [10, 11, 12], fun _ => [10, 11]⟩ 5).1 = 0 ∧
    5 ∉ (releaseBufferSet ⟨[5], [10, 11, 12], fun _ => [10, 11]⟩ 5).2.liveSets ∧
    (∀ b ∈ ([10, 11] : List Nat),
      b ∉ (releaseBufferSet ⟨[5], [10, 11, 12], fun _ => [10, 11]⟩ 5).2.liveBufs) ∧
    gss_release_buffer_set_decl.ret = gss_inquire_sec_context_by_oid_decl.ret ∧
    gss_release_buffer_set_decl.params.head? =
      gss_inquire_sec_context_by_oid_decl.params.head? :=
  release_frees_whole_set ⟨[5], [10, 11, 12], fun _ => [10, 11]⟩ 5
    (by simp)

/-- Claim C5: in the buffer-set lifecycle, a released set is never used
again - no valid trace contains a read or a release of a set after the
release of that set. -/
theorem no_use_after_release (pre post : List Event) (sid : Nat)
    (sfin : LifeState)
    (hrun : runTrace initState (pre ++ Event.release sid :: post) = some sfin) :
    Event.read sid ∉ post ∧ Event.release sid ∉ post := by
  rw [runTrace_append] at hrun
  cases hpre : runTrace initState pre with
  | none => rw [hpre] at hrun; cases hrun
  | some mid =>
      rw [hpre] at hrun
      simp only [runTrace] at hrun
      cases hstep : lifeStep mid (Event.release sid) with
      | none => rw [hstep] at hrun; cases hrun
      | some s2 =>
          rw [hstep] at hrun
          have hrel : sid ∈ s2.released := by
            simp only [lifeStep] at hstep
            by_cases hc : sid ∈ mid.allocated ∧ sid ∉ mid.released
            · simp only [if_pos hc] at hstep
              cases hstep
              exact List.mem_cons_self _ _
            · simp [if_neg hc] at hstep
          exact released_not_used hrel hrun

/-- Witness for C5 on the concrete trace query 3, read 3, release 3,
query 4. -/
theorem no_use_after_release_witness :
    Event.read 3 ∉ [Event.query 4] ∧ Event.release 3 ∉ [Event.query 4] :=
  no_use_after_release [Event.query 3, Event.read 3] [Event.query 4] 3
    ⟨[4, 3], [3]⟩ (by decide)

/-- Claim C6: a well-formed buffer set whose count is zero has a null or
empty elements sequence, and the distinguished value GSS_C_NO_BUFFER_SET
is itself a well-formed (absent) buffer set. -/
theorem zero_count_null_or_empty (s : gss_buffer_set_desc)
    (hwf : wellFormed s = true) (hc : s.count = 0) :
    (s.elements = none ∨ s.elements = some []) ∧
    wellFormedSet GSS_C_NO_BUFFER_SET = true := by
  refine ⟨?_, rfl⟩
  rcases s with ⟨c, els⟩
  cases els with
  | none => exact Or.inl rfl
  | some l =>
      right
      simp_all [wellFormed, List.length_eq_zero]

/-- Witness for C6 at the empty buffer set. -/
theorem zero_count_null_or_empty_witness :
    ((⟨0, some []⟩ : gss_buffer_set_desc).elements = none ∨
     (⟨0, some []⟩ : gss_buffer_set_desc).elements = some []) ∧
    wellFormedSet GSS_C_NO_BUFFER_SET = true :=
  zero_count_null_or_empty ⟨0, some []⟩ (by decide) rfl

/-- Claim C7: on the targets where the packing directive applies (macOS
with ppc, ppc64, i386 or x86_64), gss_buffer_set_desc is laid out with
byte alignment 2. -/
theorem packed_alignment_two (c : Config) (h : packPushCond c = true) :
    structAlignment c = 2 := by
  unfold structAlignment
  rw [if_pos h]
  rcases c with ⟨mac, arch⟩
  cases arch <;> norm_num [ptrBytes]

/-- Witness for C7 on the macOS x86_64 target. -/
theorem packed_alignment_two_witness :
    packPushCond ⟨true, Arch.x86_64⟩ = true ∧
    structAlignment ⟨true, Arch.x86_64⟩ = 2 :=
  ⟨by decide, packed_alignment_two ⟨true, Arch.x86_64⟩ (by decide)⟩

/-- Claim C8: both entry points are declared and not defined - the header
attaches no body to either, leaving their semantics entirely to the
external provider. -/
theorem decls_have_no_body :
    headerDecls.map FunDecl.fname =
      ["gss_release_buffer_set", "gss_inquire_sec_context_by_oid"] ∧
    ∀ d ∈ headerDecls, d.hasBody = false := by
  refine ⟨rfl, ?_⟩
  decide

/-- Witness for C8 at the release declaration. -/
theorem decls_have_no_body_witness :
    gss_release_buffer_set_decl.hasBody = false :=
  decls_have_no_body.2 gss_release_buffer_set_decl (by decide)

/-- Claim C9: GSS_C_NO_BUFFER_SET is the null gss_buffer_set_t pointer,
and it is the unique value denoting the absence of a buffer set. -/
theorem no_buffer_set_unique :
    GSS_C_NO_BUFFER_SET = (none : gss_buffer_set_t) ∧
    ∀ p : gss_buffer_set_t, isNoBufferSet p = true ↔ p = GSS_C_NO_BUFFER_SET := by
  refine ⟨rfl, ?_⟩
  intro p
  cases p <;> simp [isNoBufferSet, GSS_C_NO_BUFFER_SET]

/-- Claim C10: push and pop of the packing directive are guarded by
identical conditions, so including the header leaves the compiler's
packing state unchanged on every target. -/
theorem pack_push_pop_balanced :
    (∀ c : Config, packPushCond c = packPopCond c) ∧
    ∀ (c : Config) (s : PackState), headerPackEffect c s = s := by
  refine ⟨fun c => rfl, ?_⟩
  intro c s
  unfold headerPackEffect
  cases h : packPushCond c with
  | true =>
      have h2 : packPopCond c = true := h
      simp [h, h2, packPush, packPop]
  | false =>
      have h2 : packPopCond c = false := h
      simp [h, h2]

end GssapiExt
